import Mathlib

/- Verification of the viewer bootstrap script (src/app.js).

The script constructs a Cesium viewer bound to the "cesiumContainer"
surface with a fixed set of UI-suppression options, imperatively hides
the credit element, and registers a click handler on "satellitesButton"
that requests an asynchronous CZML load and flies the camera home with
a zero-duration transition.

The embedding models the display session as an explicit state record.
Observable commands issued to the engine are recorded in a trace list.
The asynchronous loader is modelled by a `pendingLoads` queue filled by
the click handler and drained by `settle`, which consults a resolver
oracle saying which resource paths load successfully; a successful load
appends one overlay to the session's overlay collection, a failed one
appends nothing. -/

namespace SatApp

/-- Fixed container surface identifier (src/app.js line 1). -/
def containerId : String := "cesiumContainer"

/-- Fixed clickable control identifier (src/app.js line 17). -/
def buttonId : String := "satellitesButton"

/-- Fixed hard-coded trajectory resource path (src/app.js line 20). -/
def czmlPath : String := "../czml_data/simple.czml"

/-- A command observably issued to the engine by the script. -/
inductive Command where
  | loadRequest (path : String)
  | cameraFlyHome (duration : Nat)
  deriving DecidableEq, Repr

/-- Options object passed to the viewer constructor (src/app.js lines 1-12).
The engine treats `creditContainer: null` as suppressing the default
credit placement, modelled by the flag `creditContainerSuppressed`. -/
structure ViewerOptions where
  shouldAnimate : Bool
  animation : Bool
  timeline : Bool
  fullscreenButton : Bool
  homeButton : Bool
  geocoder : Bool
  navigationHelpButton : Bool
  sceneModePicker : Bool
  baseLayerPicker : Bool
  creditContainerSuppressed : Bool
  deriving DecidableEq, Repr

/-- The concrete options literal of src/app.js lines 2-11. -/
def appOptions : ViewerOptions :=
  { shouldAnimate := true
    animation := false
    timeline := false
    fullscreenButton := false
    homeButton := false
    geocoder := false
    navigationHelpButton := false
    sceneModePicker := false
    baseLayerPicker := false
    creditContainerSuppressed := true }

/-- Display-session state. UI-feature visibilities mirror the options; the
credit element carries a CSS display string; overlays are the loaded data
sources; `pendingLoads` are issued but unsettled load requests; `issued`
is the trace of commands sent to the engine; `otherState` stands for all
remaining engine-owned session state the script never touches. -/
structure ViewerState where
  animationVisible : Bool
  timelineVisible : Bool
  fullscreenButtonVisible : Bool
  homeButtonVisible : Bool
  geocoderVisible : Bool
  navigationHelpButtonVisible : Bool
  sceneModePickerVisible : Bool
  baseLayerPickerVisible : Bool
  creditSuppressed : Bool
  shouldAnimate : Bool
  creditDisplay : String
  cameraPose : String
  overlays : List String
  pendingLoads : List String
  issued : List Command
  otherState : Nat

/-- Viewer construction (src/app.js line 1): each UI feature is visible
exactly when its option is on; the engine's default credit element styling
is `"block"` (the declarative option alone does not set display `"none"`,
which is why line 14 exists). -/
def mkViewer (opts : ViewerOptions) : ViewerState :=
  { animationVisible := opts.animation
    timelineVisible := opts.timeline
    fullscreenButtonVisible := opts.fullscreenButton
    homeButtonVisible := opts.homeButton
    geocoderVisible := opts.geocoder
    navigationHelpButtonVisible := opts.navigationHelpButton
    sceneModePickerVisible := opts.sceneModePicker
    baseLayerPickerVisible := opts.baseLayerPicker
    creditSuppressed := opts.creditContainerSuppressed
    shouldAnimate := opts.shouldAnimate
    creditDisplay := "block"
    cameraPose := "default"
    overlays := []
    pendingLoads := []
    issued := []
    otherState := 0 }

/-- Imperative credit-element override (src/app.js line 14):
`viewer.cesiumWidget.creditContainer.style.display = "none"`. -/
def hideCredit (v : ViewerState) : ViewerState :=
  { v with creditDisplay := "none" }

/-- The session state right after the top-level initialization sequence
(lines 1-14). -/
def initViewer : ViewerState :=
  hideCredit (mkViewer appOptions)

/-- The click handler body (src/app.js lines 18-23): it issues a load
request for `czmlPath` (fire-and-forget, queued as pending) followed by
`camera.flyHome(0)`, which instantly restores the home pose. It consumes
no return value and is a total function of the state. -/
def clickHandler (v : ViewerState) : ViewerState :=
  { v with
    pendingLoads := v.pendingLoads ++ [czmlPath]
    issued := v.issued ++ [Command.loadRequest czmlPath, Command.cameraFlyHome 0]
    cameraPose := "home" }

/-- `clicks n v`: the handler fires `n` times in sequence. -/
def clicks : Nat → ViewerState → ViewerState
  | 0, v => v
  | n + 1, v => clicks n (clickHandler v)

/-- Settling of the asynchronous loads: every pending load whose path the
resolver accepts yields one overlay appended to the collection (in order,
no deduplication); a rejected load adds nothing and raises nothing. -/
def settle (resolves : String → Bool) (v : ViewerState) : ViewerState :=
  { v with
    overlays := v.overlays ++ v.pendingLoads.filter resolves
    pendingLoads := [] }

/-- Recognizer for load-request commands. -/
def isLoadRequest : Command → Bool
  | Command.loadRequest _ => true
  | _ => false

/-- Recognizer for camera-reset commands. -/
def isFlyHome : Command → Bool
  | Command.cameraFlyHome _ => true
  | _ => false

/-- Number of load requests issued so far. -/
def loadRequestCount (v : ViewerState) : Nat :=
  (v.issued.filter isLoadRequest).length

/-- Number of camera-reset commands issued so far. -/
def flyHomeCount (v : ViewerState) : Nat :=
  (v.issued.filter isFlyHome).length

/-- The commands a single run of the handler appends to the trace. -/
def emitted (v : ViewerState) : List Command :=
  (clickHandler v).issued.drop v.issued.length

/-- The UI-feature configuration of a session, gathered for frame lemmas. -/
def uiState (v : ViewerState) : List Bool :=
  [v.animationVisible, v.timelineVisible, v.fullscreenButtonVisible,
   v.homeButtonVisible, v.geocoderVisible, v.navigationHelpButtonVisible,
   v.sceneModePickerVisible, v.baseLayerPickerVisible, v.creditSuppressed,
   v.shouldAnimate]

/- Boot model for the top-level sequence (C10): the hosting environment
provides a set of element identifiers; constructing the viewer requires
the container to exist, and registering the handler requires the button
to exist. Steps are recorded in execution order. -/

/-- Hosting environment: the element identifiers present in the document. -/
structure Env where
  elements : List String

/-- The three top-level statements of src/app.js, in order. -/
inductive InitStep where
  | constructViewer
  | creditOverride
  | registerHandler
  deriving DecidableEq, Repr

/-- Result of running the module top level: which statements executed,
the resulting session (if constructed), and whether the click handler got
attached. -/
structure BootResult where
  executed : List InitStep
  viewer : Option ViewerState
  handlerAttached : Bool

/-- The module top-level sequence: viewer construction (line 1) fails if
the container is absent, aborting everything after it; the credit
override (line 14) runs next; `getElementById(buttonId)` (line 17) yields
null if the button is absent, so `addEventListener` throws after the
override already ran and no handler is attached. -/
def boot (env : Env) : BootResult :=
  if containerId ∈ env.elements then
    let v := hideCredit (mkViewer appOptions)
    if buttonId ∈ env.elements then
      { executed := [InitStep.constructViewer, InitStep.creditOverride,
                     InitStep.registerHandler]
        viewer := some v
        handlerAttached := true }
    else
      { executed := [InitStep.constructViewer, InitStep.creditOverride]
        viewer := some v
        handlerAttached := false }
  else
    { executed := []
      viewer := none
      handlerAttached := false }

/-- A click event at the environment level: it reaches the handler only
when one was attached. -/
def envClick (b : BootResult) : BootResult :=
  if b.handlerAttached then { b with viewer := b.viewer.map clickHandler }
  else b

/-- `n` click events at the environment level. -/
def envClicks : Nat → BootResult → BootResult
  | 0, b => b
  | n + 1, b => envClicks n (envClick b)

/-- The commands the session has issued after boot (none when no session
was constructed). -/
def bootIssued (b : BootResult) : List Command :=
  match b.viewer with
  | some v => v.issued
  | none => []

/- Shared helper lemmas. -/

theorem clickHandler_issued (v : ViewerState) :
    (clickHandler v).issued
      = v.issued ++ [Command.loadRequest czmlPath, Command.cameraFlyHome 0] :=
  rfl

theorem clickHandler_pendingLoads (v : ViewerState) :
    (clickHandler v).pendingLoads = v.pendingLoads ++ [czmlPath] :=
  rfl

theorem clicks_pendingLoads (n : Nat) (v : ViewerState) :
    (clicks n v).pendingLoads = v.pendingLoads ++ List.replicate n czmlPath := by
  induction n generalizing v with
  | zero => simp [clicks]
  | succ n ih =>
      simp [clicks, ih, clickHandler_pendingLoads, List.replicate_succ,
        List.append_assoc]

theorem clickHandler_loadRequestCount (v : ViewerState) :
    loadRequestCount (clickHandler v) = loadRequestCount v + 1 := by
  simp [loadRequestCount, clickHandler_issued, List.filter_append, isLoadRequest]

theorem clickHandler_flyHomeCount (v : ViewerState) :
    flyHomeCount (clickHandler v) = flyHomeCount v + 1 := by
  simp [flyHomeCount, clickHandler_issued, List.filter_append, isFlyHome]

theorem clicks_loadRequestCount (n : Nat) (v : ViewerState) :
    loadRequestCount (clicks n v) = loadRequestCount v + n := by
  induction n generalizing v with
  | zero => simp [clicks]
  | succ n ih =>
      rw [clicks, ih, clickHandler_loadRequestCount]
      omega

theorem clicks_flyHomeCount (n : Nat) (v : ViewerState) :
    flyHomeCount (clicks n v) = flyHomeCount v + n := by
  induction n generalizing v with
  | zero => simp [clicks]
  | succ n ih =>
      rw [clicks, ih, clickHandler_flyHomeCount]
      omega

theorem clicks_overlays (n : Nat) (v : ViewerState) :
    (clicks n v).overlays = v.overlays := by
  induction n generalizing v with
  | zero => simp [clicks]
  | succ n ih => simp [clicks, ih, clickHandler]

theorem settle_issued (resolves : String → Bool) (v : ViewerState) :
    (settle resolves v).issued = v.issued :=
  rfl

theorem filter_replicate_of_resolves (resolves : String → Bool) (p : String)
    (h : resolves p = true) (n : Nat) :
    (List.replicate n p).filter resolves = List.replicate n p := by
  induction n with
  | zero => rfl
  | succ n ih => simp [List.replicate_succ, List.filter_cons, h, ih]

theorem settled_clicks_overlays (n : Nat) (resolves : String → Bool)
    (h : resolves czmlPath = true) :
    (settle resolves (clicks n initViewer)).overlays = List.replicate n czmlPath := by
  simp [settle, clicks_overlays, clicks_pendingLoads,
    filter_replicate_of_resolves resolves czmlPath h, initViewer, hideCredit,
    mkViewer]

theorem envClick_not_attached (b : BootResult) (h : b.handlerAttached = false) :
    envClick b = b := by
  simp [envClick, h]

theorem envClicks_not_attached (n : Nat) (b : BootResult)
    (h : b.handlerAttached = false) :
    envClicks n b = b := by
  induction n with
  | zero => rfl
  | succ n ih => rw [envClicks, envClick_not_attached b h, ih]

/- Claim theorems. -/

/-- C1: for every N ≥ 1, clicking the registered control N times issues
exactly N load-requests and exactly N camera-reset commands, and once all
loads settle successfully the overlay collection has length exactly N (no
deduplication). -/
theorem c1_n_clicks_counts (N : Nat) (hN : 1 ≤ N) (resolves : String → Bool)
    (hres : resolves czmlPath = true) :
    loadRequestCount (settle resolves (clicks N initViewer)) = N ∧
    flyHomeCount (settle resolves (clicks N initViewer)) = N ∧
    (settle resolves (clicks N initViewer)).overlays.length = N := by
  refine ⟨?_, ?_, ?_⟩
  · rw [loadRequestCount, settle_issued, ← loadRequestCount]
    rw [clicks_loadRequestCount]
    simp [loadRequestCount, initViewer, hideCredit, mkViewer]
  · rw [flyHomeCount, settle_issued, ← flyHomeCount]
    rw [clicks_flyHomeCount]
    simp [flyHomeCount, initViewer, hideCredit, mkViewer]
  · rw [settled_clicks_overlays N resolves hres]
    simp

/-- C1 witness: two clicks with a succeeding resolver give two load
requests, two camera resets, two overlays. -/
theorem c1_n_clicks_counts_witness :
    1 ≤ 2 ∧ ((fun _ => true) : String → Bool) czmlPath = true ∧
    (loadRequestCount (settle (fun _ => true) (clicks 2 initViewer)) = 2 ∧
     flyHomeCount (settle (fun _ => true) (clicks 2 initViewer)) = 2 ∧
     (settle (fun _ => true) (clicks 2 initViewer)).overlays.length = 2) :=
  ⟨by decide, rfl, c1_n_clicks_counts 2 (by decide) (fun _ => true) rfl⟩

/-- C2: every single click issues a camera-reset command with a
zero-duration transition argument, and this happens while the load is
still pending — the overlay collection is untouched and the load request
sits in the pending queue, so no wait on load completion is enforced. -/
theorem c2_fly_home_zero_before_load (v : ViewerState) :
    Command.cameraFlyHome 0 ∈ (clickHandler v).issued ∧
    (clickHandler v).issued
      = v.issued ++ [Command.loadRequest czmlPath, Command.cameraFlyHome 0] ∧
    (clickHandler v).overlays = v.overlays ∧
    (clickHandler v).pendingLoads = v.pendingLoads ++ [czmlPath] := by
  refine ⟨?_, rfl, rfl, rfl⟩
  simp [clickHandler_issued]

/-- C3: the session is constructed with exactly the configuration turning
all nine UI toggles off (credit container suppressed) and shouldAnimate
on, and immediately after initialization every listed UI feature reads
hidden/disabled while shouldAnimate reads on. -/
theorem c3_config_hides_all_ui :
    (appOptions.animation = false ∧ appOptions.timeline = false ∧
     appOptions.fullscreenButton = false ∧ appOptions.homeButton = false ∧
     appOptions.geocoder = false ∧ appOptions.navigationHelpButton = false ∧
     appOptions.sceneModePicker = false ∧ appOptions.baseLayerPicker = false ∧
     appOptions.creditContainerSuppressed = true ∧
     appOptions.shouldAnimate = true) ∧
    (initViewer.animationVisible = false ∧ initViewer.timelineVisible = false ∧
     initViewer.fullscreenButtonVisible = false ∧
     initViewer.homeButtonVisible = false ∧ initViewer.geocoderVisible = false ∧
     initViewer.navigationHelpButtonVisible = false ∧
     initViewer.sceneModePickerVisible = false ∧
     initViewer.baseLayerPickerVisible = false ∧
     initViewer.creditSuppressed = true ∧ initViewer.shouldAnimate = true) := by
  decide

/-- C4: after initialization the credit element's display is "none" via
the imperative override, for every option choice — independently of the
declarative suppression option, which by itself leaves display at the
engine default "block". -/
theorem c4_credit_display_forced_none (opts : ViewerOptions) :
    (hideCredit (mkViewer opts)).creditDisplay = "none" ∧
    (mkViewer opts).creditDisplay ≠ "none" ∧
    initViewer.creditDisplay = "none" := by
  refine ⟨rfl, ?_, rfl⟩
  simp [mkViewer]

/-- C5: the script uses exactly the fixed identifiers "cesiumContainer"
and "satellitesButton", and from every prior state the handler issues a
load request for exactly "../czml_data/simple.czml" — the identifiers and
path never vary with input or state. -/
theorem c5_fixed_identifiers (v : ViewerState) :
    containerId = "cesiumContainer" ∧ buttonId = "satellitesButton" ∧
    czmlPath = "../czml_data/simple.czml" ∧
    emitted v = [Command.loadRequest "../czml_data/simple.czml",
                 Command.cameraFlyHome 0] := by
  refine ⟨rfl, rfl, rfl, ?_⟩
  simp [emitted, clickHandler_issued, czmlPath]

/-- C6: when the resource path fails to resolve, a click adds zero
overlays once loads settle (the overlay collection equals what settling
the prior state alone gives), the handler still runs to completion
issuing its usual two commands and nothing else — no error report, no
exception: the handler is a total function in this model. -/
theorem c6_load_failure_silent (resolves : String → Bool)
    (hfail : resolves czmlPath = false) (v : ViewerState) :
    (settle resolves (clickHandler v)).overlays = (settle resolves v).overlays ∧
    (settle resolves (clickHandler v)).issued
      = v.issued ++ [Command.loadRequest czmlPath, Command.cameraFlyHome 0] := by
  constructor
  · simp [settle, clickHandler, List.filter_append, List.filter_cons, hfail]
  · rfl

/-- C6 witness: with an always-failing resolver, one click from the
initial session leaves the overlay collection where settling alone would. -/
theorem c6_load_failure_silent_witness :
    ((fun _ => false) : String → Bool) czmlPath = false ∧
    ((settle (fun _ => false) (clickHandler initViewer)).overlays
        = (settle (fun _ => false) initViewer).overlays ∧
     (settle (fun _ => false) (clickHandler initViewer)).issued
        = initViewer.issued
            ++ [Command.loadRequest czmlPath, Command.cameraFlyHome 0]) :=
  ⟨rfl, c6_load_failure_silent (fun _ => false) rfl initViewer⟩

/-- C7: the click handler is not idempotent — for every k ≥ 2, clicking
k times and settling yields a different overlay collection length than
clicking once (k overlays accumulate, against 1). -/
theorem c7_not_idempotent (k : Nat) (hk : 2 ≤ k) (resolves : String → Bool)
    (hres : resolves czmlPath = true) :
    (settle resolves (clicks k initViewer)).overlays.length
      ≠ (settle resolves (clicks 1 initViewer)).overlays.length := by
  rw [settled_clicks_overlays k resolves hres,
    settled_clicks_overlays 1 resolves hres]
  simp
  omega

/-- C7 witness: two clicks differ from one click in settled overlay
count. -/
theorem c7_not_idempotent_witness :
    2 ≤ 2 ∧ ((fun _ => true) : String → Bool) czmlPath = true ∧
    (settle (fun _ => true) (clicks 2 initViewer)).overlays.length
      ≠ (settle (fun _ => true) (clicks 1 initViewer)).overlays.length :=
  ⟨by decide, rfl, c7_not_idempotent 2 (by decide) (fun _ => true) rfl⟩

/-- C8: the script's operations only append to the overlay collection and
never remove from it, and everything in the session besides the camera
pose, the credit display, and the overlay machinery is left unchanged:
the handler appends pending loads and commands only, settling appends
exactly the successfully resolved pending loads, and the credit override
touches nothing but the credit display. -/
theorem c8_frame_effects (v : ViewerState) (resolves : String → Bool) :
    ((clickHandler v).overlays = v.overlays ∧
     (settle resolves v).overlays = v.overlays ++ v.pendingLoads.filter resolves ∧
     (hideCredit v).overlays = v.overlays) ∧
    ((clickHandler v).creditDisplay = v.creditDisplay ∧
     (settle resolves v).creditDisplay = v.creditDisplay ∧
     (settle resolves v).cameraPose = v.cameraPose ∧
     (hideCredit v).cameraPose = v.cameraPose) ∧
    ((clickHandler v).otherState = v.otherState ∧
     (settle resolves v).otherState = v.otherState ∧
     (hideCredit v).otherState = v.otherState) ∧
    (uiState (clickHandler v) = uiState v ∧
     uiState (settle resolves v) = uiState v ∧
     uiState (hideCredit v) = uiState v) :=
  ⟨⟨rfl, rfl, rfl⟩, ⟨rfl, rfl, rfl, rfl⟩, ⟨rfl, rfl, rfl⟩, ⟨rfl, rfl, rfl⟩⟩

/-- C9: on every invocation the handler issues both actions
unconditionally with identical arguments regardless of prior state: the
commands emitted from any two states are equal, and they are exactly the
fixed load-request/camera-reset pair; no return value of either action
feeds back into the handler. -/
theorem c9_click_state_independent (s t : ViewerState) :
    emitted s = emitted t ∧
    emitted s = [Command.loadRequest czmlPath, Command.cameraFlyHome 0] := by
  constructor
  · simp [emitted, clickHandler_issued]
  · simp [emitted, clickHandler_issued]

/-- C10: initialization is strictly sequential with no local error
handling — if the container is missing so viewer construction fails,
then neither the credit override nor the handler registration executes,
no handler is attached, and any number of subsequent clicks issues no
load or camera command at all. -/
theorem c10_construction_failure_aborts (env : Env) (n : Nat)
    (h : containerId ∉ env.elements) :
    InitStep.creditOverride ∉ (boot env).executed ∧
    InitStep.registerHandler ∉ (boot env).executed ∧
    (boot env).handlerAttached = false ∧
    bootIssued (envClicks n (boot env)) = [] := by
  have hb : boot env
      = { executed := [], viewer := none, handlerAttached := false } := by
    simp [boot, h]
  rw [hb]
  refine ⟨by simp, by simp, rfl, ?_⟩
  rw [envClicks_not_attached n _ rfl]
  rfl

/-- C10 witness: an empty environment has no container; boot executes
nothing, attaches nothing, and five clicks issue no command. -/
theorem c10_construction_failure_aborts_witness :
    containerId ∉ (Env.mk []).elements ∧
    (InitStep.creditOverride ∉ (boot (Env.mk [])).executed ∧
     InitStep.registerHandler ∉ (boot (Env.mk [])).executed ∧
     (boot (Env.mk [])).handlerAttached = false ∧
     bootIssued (envClicks 5 (boot (Env.mk []))) = []) :=
  ⟨by simp, c10_construction_failure_aborts (Env.mk []) 5 (by simp)⟩

end SatApp
